import Mathlib

/-!
Shallow embedding of the AutoCal calibration core (src/app.py).

Python floats are modelled as real numbers; Python strings as lists of
characters.  Fallible Python code (a float division that can raise
ZeroDivisionError) is embedded as `Except PyError`.
-/

open Real

/-- Embeds `math.atan2(y, x)`: the argument of the complex number x + i y,
in (-pi, pi], which is exactly the mathematical atan2 convention. -/
noncomputable def atan2 (y x : ℝ) : ℝ := Complex.arg ⟨x, y⟩

/-- Embeds the dataclass `LongLat` (src/app.py lines 11-21): a pair of
floats named `longitude` and `latitude`. -/
structure LongLat where
  longitude : ℝ
  latitude : ℝ

/-- Embeds `LongLat.distance` (src/app.py line 33-40):
`math.sqrt((self.longitude - other.longitude)**2 + (self.latitude - other.latitude)**2)`. -/
noncomputable def LongLat.distance (self other : LongLat) : ℝ :=
  Real.sqrt ((self.longitude - other.longitude) ^ 2 + (self.latitude - other.latitude) ^ 2)

/-- Embeds `LongLat.__sub__` (src/app.py lines 42-49), which returns
`self.distance(other)` — a scalar, not a vector. -/
noncomputable def LongLat.sub (self other : LongLat) : ℝ := self.distance other

/-- Embeds the dataclass `CalPoint` (src/app.py lines 52-60). -/
structure CalPoint where
  name : List Char
  longlat : LongLat

/-- Embeds the NamedTuple `Transform` (src/app.py lines 74-84). -/
structure Transform where
  s : ℝ
  dx : ℝ
  dy : ℝ
  theta : ℝ

/-- Embeds the NamedTuple `PointTriplet` (src/app.py lines 111-117). -/
structure PointTriplet where
  A : CalPoint
  B : CalPoint
  C : CalPoint

/-- Embeds the `cal_points` dictionary passed to
`calculate_transform_params`: in every call site it holds exactly the keys
`"A"`, `"B"`, `"C"`, each mapped to a `LongLat`. -/
structure CalDict where
  A : LongLat
  B : LongLat
  C : LongLat

/-- The errors the embedded code can raise.  `zeroDivisionError` models
Python raising `ZeroDivisionError` on float division by `0.0`. -/
inductive PyError where
  | zeroDivisionError
deriving DecidableEq

/-- Embeds `calculate_transform_params` (src/app.py lines 120-151).

* `dx`, `dy` are plain coordinate differences `a - A` (lines 137-138);
* `s = (a - b)/(A - B)` (line 143) where `__sub__` is Euclidean distance;
  Python raises `ZeroDivisionError` when the divisor `A - B` is zero, which
  the embedding returns as `Except.error`;
* `theta = atan2(B.lat - A.lat, B.lon - A.lon) - atan2(b.lat - a.lat, b.lon - a.lon)`
  (lines 147-149).

The third correspondence `C` is destructured into `_` and never used. -/
noncomputable def calculate_transform_params (cal_points : CalDict)
    (cad_points : PointTriplet) : Except PyError Transform :=
  let A := cad_points.A.longlat
  let B := cad_points.B.longlat
  let a := cal_points.A
  let b := cal_points.B
  let dx := a.longitude - A.longitude
  let dy := a.latitude - A.latitude
  if LongLat.sub A B = 0 then
    Except.error PyError.zeroDivisionError
  else
    let s := LongLat.sub a b / LongLat.sub A B
    let theta := atan2 (B.latitude - A.latitude) (B.longitude - A.longitude)
               - atan2 (b.latitude - a.latitude) (b.longitude - a.longitude)
    Except.ok ⟨s, dx, dy, theta⟩

/-- Embeds `transform_point` (src/app.py lines 154-177): scale, then
translate, then rotate by `theta`. -/
noncomputable def transform_point (point : LongLat) (transform : Transform) : ℝ × ℝ :=
  let x := point.longitude * transform.s + transform.dx
  let y := point.latitude * transform.s + transform.dy
  (x * Real.cos transform.theta - y * Real.sin transform.theta,
   x * Real.sin transform.theta + y * Real.cos transform.theta)

/-- Embeds the boundary-vertex loop of `generate_calibrated_geojson`
(src/app.py lines 207-210): each vertex of the boundary polyline is mapped
by `transform_point` and appended in order. -/
noncomputable def map_boundary (vertices : List LongLat) (transform : Transform) :
    List (ℝ × ℝ) :=
  vertices.map fun v => transform_point v transform

/- Basic evaluation lemmas for `atan2` and `LongLat.distance`. -/

lemma atan2_zero_of_nonneg (x : ℝ) (hx : 0 ≤ x) : atan2 0 x = 0 := by
  have h : (⟨x, 0⟩ : ℂ) = (x : ℂ) := by
    apply Complex.ext <;> simp
  rw [atan2, h, Complex.arg_ofReal_of_nonneg hx]

lemma atan2_one_zero : atan2 1 0 = Real.pi / 2 := by
  have h : (⟨0, 1⟩ : ℂ) = Complex.I := by
    apply Complex.ext <;> simp
  rw [atan2, h, Complex.arg_I]

lemma distance_eq_zero_iff (p q : LongLat) : LongLat.distance p q = 0 ↔ p = q := by
  constructor
  · intro h
    rw [LongLat.distance, Real.sqrt_eq_zero (by positivity)] at h
    have h1 : (p.longitude - q.longitude) ^ 2 = 0 ∧ (p.latitude - q.latitude) ^ 2 = 0 := by
      constructor <;> nlinarith [sq_nonneg (p.longitude - q.longitude),
        sq_nonneg (p.latitude - q.latitude)]
    obtain ⟨hp, hq⟩ := h1
    have e1 : p.longitude = q.longitude := by nlinarith [sq_nonneg (p.longitude - q.longitude)]
    have e2 : p.latitude = q.latitude := by nlinarith [sq_nonneg (p.latitude - q.latitude)]
    cases p; cases q; simp_all
  · rintro rfl
    simp [LongLat.distance]

lemma distance_self (p : LongLat) : LongLat.distance p p = 0 :=
  (distance_eq_zero_iff p p).mpr rfl

lemma sub_eval (x1 y1 x2 y2 : ℝ) :
    LongLat.sub ⟨x1, y1⟩ ⟨x2, y2⟩ = Real.sqrt ((x1 - x2) ^ 2 + (y1 - y2) ^ 2) := rfl

lemma calc_eval (a b c A B C : LongLat) (nA nB nC : List Char)
    (h : LongLat.sub A B ≠ 0) :
    calculate_transform_params ⟨a, b, c⟩ ⟨⟨nA, A⟩, ⟨nB, B⟩, ⟨nC, C⟩⟩ =
      Except.ok ⟨LongLat.sub a b / LongLat.sub A B,
                 a.longitude - A.longitude, a.latitude - A.latitude,
                 atan2 (B.latitude - A.latitude) (B.longitude - A.longitude)
                   - atan2 (b.latitude - a.latitude) (b.longitude - a.longitude)⟩ := by
  rw [calculate_transform_params]
  simp [h]

/-- Claim C7: the solved Transform does not depend on the third
correspondence `C`, in either drawing space or target space (nor on the
point names): `calculate_transform_params` reads only the `A` and `B`
entries of both inputs. -/
theorem c7_third_point_unused (a b c c' : LongLat) (A B C C' : CalPoint) :
    calculate_transform_params ⟨a, b, c⟩ ⟨A, B, C⟩ =
      calculate_transform_params ⟨a, b, c'⟩ ⟨A, B, C'⟩ := rfl

/-- Claim C8: mapping a boundary of N vertices yields N points, in order,
and the i-th output is `transform_point` of the i-th input vertex alone. -/
theorem c8_boundary_elementwise (vs : List LongLat) (t : Transform) :
    (map_boundary vs t).length = vs.length ∧
      ∀ i : ℕ, (map_boundary vs t)[i]? =
        Option.map (fun p => transform_point p t) vs[i]? := by
  refine ⟨by simp [map_boundary], fun i => ?_⟩
  simp [map_boundary]

/-- Claim C10: whenever `calculate_transform_params` returns a Transform,
its scale is non-negative: it is the quotient of two Euclidean distances,
each a square root. -/
theorem c10_scale_nonneg (cal : CalDict) (cad : PointTriplet) (t : Transform)
    (h : calculate_transform_params cal cad = Except.ok t) : 0 ≤ t.s := by
  rw [calculate_transform_params] at h
  split at h
  · exact absurd h (by simp)
  · simp only [Except.ok.injEq] at h
    rw [← h]
    exact div_nonneg (Real.sqrt_nonneg _) (Real.sqrt_nonneg _)

lemma calc_identity_eval :
    calculate_transform_params ⟨⟨0, 0⟩, ⟨1, 0⟩, ⟨0, 0⟩⟩
        ⟨⟨['A'], ⟨0, 0⟩⟩, ⟨['B'], ⟨1, 0⟩⟩, ⟨['C'], ⟨0, 0⟩⟩⟩ =
      Except.ok ⟨1, 0, 0, 0⟩ := by
  rw [calc_eval]
  · congr 1
    simp [sub_eval]
  · rw [sub_eval]
    norm_num [Real.sqrt_one]

/-- Witness for C10: at the identity calibration the solved scale is `1 ≥ 0`. -/
theorem c10_scale_nonneg_witness :
    calculate_transform_params ⟨⟨0, 0⟩, ⟨1, 0⟩, ⟨0, 0⟩⟩
        ⟨⟨['A'], ⟨0, 0⟩⟩, ⟨['B'], ⟨1, 0⟩⟩, ⟨['C'], ⟨0, 0⟩⟩⟩ =
      Except.ok ⟨1, 0, 0, 0⟩ ∧ 0 ≤ (1 : ℝ) :=
  ⟨calc_identity_eval, c10_scale_nonneg _ _ _ calc_identity_eval⟩

lemma calc_ok_of_ne (cal : CalDict) (cad : PointTriplet)
    (h : cad.A.longlat ≠ cad.B.longlat) :
    calculate_transform_params cal cad =
      Except.ok ⟨LongLat.sub cal.A cal.B / LongLat.sub cad.A.longlat cad.B.longlat,
                 cal.A.longitude - cad.A.longlat.longitude,
                 cal.A.latitude - cad.A.longlat.latitude,
                 atan2 (cad.B.longlat.latitude - cad.A.longlat.latitude)
                     (cad.B.longlat.longitude - cad.A.longlat.longitude)
                   - atan2 (cal.B.latitude - cal.A.latitude)
                     (cal.B.longitude - cal.A.longitude)⟩ := by
  have hd : LongLat.sub cad.A.longlat cad.B.longlat ≠ 0 := fun h0 =>
    h ((distance_eq_zero_iff _ _).mp h0)
  rw [calculate_transform_params]
  simp [hd]

lemma calc_rot_eval :
    calculate_transform_params ⟨⟨0, 0⟩, ⟨0, 1⟩, ⟨0, 0⟩⟩
        ⟨⟨['A'], ⟨0, 0⟩⟩, ⟨['B'], ⟨1, 0⟩⟩, ⟨['C'], ⟨0, 0⟩⟩⟩ =
      Except.ok ⟨1, 0, 0, -(Real.pi / 2)⟩ := by
  rw [calc_eval]
  · rw [sub_eval, sub_eval]
    norm_num [Real.sqrt_one, atan2_zero_of_nonneg, atan2_one_zero]
  · rw [sub_eval]
    norm_num [Real.sqrt_one]

/-- Claim C2 counterexample: with drawing baseline u = (1,0) and target
baseline v = (0,1), the code returns scale 1 (a quotient of Euclidean
distances), while the claimed formula (u.v)/(u.u) gives 0. -/
theorem c2_scale_dot_formula_fails :
    calculate_transform_params ⟨⟨0, 0⟩, ⟨0, 1⟩, ⟨0, 0⟩⟩
        ⟨⟨['A'], ⟨0, 0⟩⟩, ⟨['B'], ⟨1, 0⟩⟩, ⟨['C'], ⟨0, 0⟩⟩⟩ =
      Except.ok ⟨1, 0, 0, -(Real.pi / 2)⟩ ∧
    ((1 : ℝ) * 0 + 0 * 1) / (1 * 1 + 0 * 0) ≠ 1 :=
  ⟨calc_rot_eval, by norm_num⟩

/-- Claim C2 (amended): the scale is the quotient of the Euclidean
baseline distances, `s = |v| / |u|`: it satisfies `s * |u| = |v|` and is
always non-negative (never negative, even for opposite baselines). -/
theorem c2_scale_eq_dist_quotient (cal : CalDict) (cad : PointTriplet)
    (h : cad.A.longlat ≠ cad.B.longlat) :
    ∃ t : Transform, calculate_transform_params cal cad = Except.ok t ∧
      0 ≤ t.s ∧
      t.s * LongLat.distance cad.A.longlat cad.B.longlat =
        LongLat.distance cal.A cal.B := by
  have hd : LongLat.distance cad.A.longlat cad.B.longlat ≠ 0 := fun h0 =>
    h ((distance_eq_zero_iff _ _).mp h0)
  refine ⟨_, calc_ok_of_ne cal cad h, ?_, ?_⟩
  · exact div_nonneg (Real.sqrt_nonneg _) (Real.sqrt_nonneg _)
  · exact div_mul_cancel₀ _ hd

/-- Witness for the amended C2 at a concrete non-degenerate input. -/
theorem c2_scale_eq_dist_quotient_witness :
    (⟨0, 0⟩ : LongLat) ≠ ⟨1, 0⟩ ∧
    ∃ t : Transform,
      calculate_transform_params ⟨⟨0, 0⟩, ⟨0, 1⟩, ⟨0, 0⟩⟩
          ⟨⟨['A'], ⟨0, 0⟩⟩, ⟨['B'], ⟨1, 0⟩⟩, ⟨['C'], ⟨0, 0⟩⟩⟩ = Except.ok t ∧
      0 ≤ t.s ∧
      t.s * LongLat.distance ⟨0, 0⟩ ⟨1, 0⟩ = LongLat.distance ⟨0, 0⟩ ⟨0, 1⟩ :=
  ⟨by simp [LongLat.mk.injEq],
   c2_scale_eq_dist_quotient ⟨⟨0, 0⟩, ⟨0, 1⟩, ⟨0, 0⟩⟩
     ⟨⟨['A'], ⟨0, 0⟩⟩, ⟨['B'], ⟨1, 0⟩⟩, ⟨['C'], ⟨0, 0⟩⟩⟩
     (by simp [LongLat.mk.injEq])⟩

/-- Claim C3 counterexample: with u = (1,0), v = (0,1) the code returns
theta = -(pi/2), while the claimed formula atan2(v.y,v.x) - atan2(u.y,u.x)
gives +pi/2. -/
theorem c3_theta_sign_fails :
    calculate_transform_params ⟨⟨0, 0⟩, ⟨0, 1⟩, ⟨0, 0⟩⟩
        ⟨⟨['A'], ⟨0, 0⟩⟩, ⟨['B'], ⟨1, 0⟩⟩, ⟨['C'], ⟨0, 0⟩⟩⟩ =
      Except.ok ⟨1, 0, 0, -(Real.pi / 2)⟩ ∧
    atan2 (1 - 0) (0 - 0) - atan2 (0 - 0) (1 - 0) = Real.pi / 2 ∧
    -(Real.pi / 2) ≠ Real.pi / 2 := by
  refine ⟨calc_rot_eval, ?_, ?_⟩
  · norm_num [atan2_one_zero, atan2_zero_of_nonneg]
  · have hp := Real.pi_pos
    intro hc
    linarith

/-- Claim C3 (amended): the returned angle is the NEGATION of
atan2(v.y,v.x) - atan2(u.y,u.x): the code computes
atan2(u.y,u.x) - atan2(v.y,v.x), i.e. the angle from the target baseline
to the drawing baseline. -/
theorem c3_theta_negation (cal : CalDict) (cad : PointTriplet)
    (h : cad.A.longlat ≠ cad.B.longlat) :
    ∃ t : Transform, calculate_transform_params cal cad = Except.ok t ∧
      t.theta =
        -(atan2 (cal.B.latitude - cal.A.latitude) (cal.B.longitude - cal.A.longitude)
          - atan2 (cad.B.longlat.latitude - cad.A.longlat.latitude)
              (cad.B.longlat.longitude - cad.A.longlat.longitude)) :=
  ⟨_, calc_ok_of_ne cal cad h, by ring⟩

/-- Witness for the amended C3 at a concrete non-degenerate input. -/
theorem c3_theta_negation_witness :
    (⟨0, 0⟩ : LongLat) ≠ ⟨1, 0⟩ ∧
    ∃ t : Transform,
      calculate_transform_params ⟨⟨0, 0⟩, ⟨0, 1⟩, ⟨0, 0⟩⟩
          ⟨⟨['A'], ⟨0, 0⟩⟩, ⟨['B'], ⟨1, 0⟩⟩, ⟨['C'], ⟨0, 0⟩⟩⟩ = Except.ok t ∧
      t.theta = -(atan2 (1 - 0) (0 - 0) - atan2 (0 - 0) (1 - 0)) :=
  ⟨by simp [LongLat.mk.injEq],
   c3_theta_negation ⟨⟨0, 0⟩, ⟨0, 1⟩, ⟨0, 0⟩⟩
     ⟨⟨['A'], ⟨0, 0⟩⟩, ⟨['B'], ⟨1, 0⟩⟩, ⟨['C'], ⟨0, 0⟩⟩⟩
     (by simp [LongLat.mk.injEq])⟩

lemma calc_scale2_eval :
    calculate_transform_params ⟨⟨0, 0⟩, ⟨2, 0⟩, ⟨0, 0⟩⟩
        ⟨⟨['A'], ⟨1, 0⟩⟩, ⟨['B'], ⟨2, 0⟩⟩, ⟨['C'], ⟨0, 0⟩⟩⟩ =
      Except.ok ⟨2, -1, 0, 0⟩ := by
  have h4 : Real.sqrt 4 = 2 := by
    rw [show (4 : ℝ) = 2 ^ 2 by norm_num, Real.sqrt_sq (by norm_num : (0 : ℝ) ≤ 2)]
  rw [calc_eval]
  · rw [sub_eval, sub_eval]
    norm_num [Real.sqrt_one, h4, atan2_zero_of_nonneg]
  · rw [sub_eval]
    norm_num [Real.sqrt_one]

/-- Claim C4 counterexample: with drawing anchor A = (1,0) and solved
scale s = 2, the code returns dx = -1 = a.x - A.x, while the claimed
formula a.x - s * A.x gives -2. -/
theorem c4_translation_formula_fails :
    calculate_transform_params ⟨⟨0, 0⟩, ⟨2, 0⟩, ⟨0, 0⟩⟩
        ⟨⟨['A'], ⟨1, 0⟩⟩, ⟨['B'], ⟨2, 0⟩⟩, ⟨['C'], ⟨0, 0⟩⟩⟩ =
      Except.ok ⟨2, -1, 0, 0⟩ ∧
    (-1 : ℝ) ≠ 0 - 2 * 1 :=
  ⟨calc_scale2_eval, by norm_num⟩

/-- Claim C4 (amended): the translation is the plain coordinate
difference of the anchor pair, dx = a.x - A.x and dy = a.y - A.y, with no
scale factor applied. -/
theorem c4_translation_plain_difference (cal : CalDict) (cad : PointTriplet)
    (h : cad.A.longlat ≠ cad.B.longlat) :
    ∃ t : Transform, calculate_transform_params cal cad = Except.ok t ∧
      t.dx = cal.A.longitude - cad.A.longlat.longitude ∧
      t.dy = cal.A.latitude - cad.A.longlat.latitude :=
  ⟨_, calc_ok_of_ne cal cad h, rfl, rfl⟩

/-- Witness for the amended C4 at a concrete non-degenerate input. -/
theorem c4_translation_plain_difference_witness :
    (⟨1, 0⟩ : LongLat) ≠ ⟨2, 0⟩ ∧
    ∃ t : Transform,
      calculate_transform_params ⟨⟨0, 0⟩, ⟨2, 0⟩, ⟨0, 0⟩⟩
          ⟨⟨['A'], ⟨1, 0⟩⟩, ⟨['B'], ⟨2, 0⟩⟩, ⟨['C'], ⟨0, 0⟩⟩⟩ = Except.ok t ∧
      t.dx = 0 - 1 ∧ t.dy = 0 - 0 :=
  ⟨by simp [LongLat.mk.injEq],
   c4_translation_plain_difference ⟨⟨0, 0⟩, ⟨2, 0⟩, ⟨0, 0⟩⟩
     ⟨⟨['A'], ⟨1, 0⟩⟩, ⟨['B'], ⟨2, 0⟩⟩, ⟨['C'], ⟨0, 0⟩⟩⟩
     (by simp [LongLat.mk.injEq])⟩

/-- Claim C5: with coincident drawing anchors (A == B) the code reaches
the unguarded float division `s = (a - b)/(A - B)` with divisor zero, so
Python raises `ZeroDivisionError`; there is no DegenerateCorrespondence
guard anywhere in `calculate_transform_params`. -/
theorem c5_degenerate_raises_zero_division :
    calculate_transform_params ⟨⟨0, 0⟩, ⟨0, 1⟩, ⟨0, 0⟩⟩
        ⟨⟨['A'], ⟨3, 4⟩⟩, ⟨['B'], ⟨3, 4⟩⟩, ⟨['C'], ⟨0, 0⟩⟩⟩ =
      Except.error PyError.zeroDivisionError := by
  rw [calculate_transform_params]
  simp [LongLat.sub, distance_self]

lemma transform_point_rot_eval :
    transform_point ⟨1, 0⟩ ⟨1, 0, 0, -(Real.pi / 2)⟩ = (0, -1) := by
  rw [transform_point]
  norm_num [Real.cos_pi_div_two, Real.sin_pi_div_two]

/-- Claim C1: the round trip fails.  With drawing anchors A = (0,0),
B = (1,0) and targets a = (0,0), b = (0,1), the code solves the transform
(s = 1, dx = 0, dy = 0, theta = -pi/2), and applying `transform_point` to
the drawing point B yields (0, -1): the second coordinate differs from the
target b = (0, 1) by 2, far beyond the 1e-9 tolerance.  (The sign of theta
is opposite to the one needed, and the translation additionally ignores
the scale factor.) -/
theorem c1_roundtrip_fails :
    calculate_transform_params ⟨⟨0, 0⟩, ⟨0, 1⟩, ⟨0, 0⟩⟩
        ⟨⟨['A'], ⟨0, 0⟩⟩, ⟨['B'], ⟨1, 0⟩⟩, ⟨['C'], ⟨0, 0⟩⟩⟩ =
      Except.ok ⟨1, 0, 0, -(Real.pi / 2)⟩ ∧
    transform_point ⟨1, 0⟩ ⟨1, 0, 0, -(Real.pi / 2)⟩ = (0, -1) ∧
    ¬ |(transform_point ⟨1, 0⟩ ⟨1, 0, 0, -(Real.pi / 2)⟩).2 - 1| ≤ 1 / 1000000000 := by
  refine ⟨calc_rot_eval, transform_point_rot_eval, ?_⟩
  rw [transform_point_rot_eval]
  rw [show ((0 : ℝ), (-1 : ℝ)).2 - 1 = -2 by norm_num]
  rw [abs_of_nonpos (by norm_num)]
  norm_num

/-!
Embedding of `LongLat.from_string` (src/app.py lines 23-31).

`re.search(r'([NS])\s*(\d+\.\d+),\s*([EW])\s*(\d+\.\d+)', string)` is
embedded as a deterministic scanner over `List Char`: the pattern contains
no alternation at a backtracking point (`\s*` can never give back a
character that `\d` or `[EW]` would accept, and `\d+` never gives back a
digit that `\.` or `,` would accept), so greedy maximal-munch matching
tried at each start position, left to right, is exactly Python's
leftmost-match semantics.  `float` applied to a matched group `\d+\.\d+`
is idealised as the exact rational value of the decimal literal.
-/

/-- Python's `\d` on ASCII input: a decimal digit character. -/
def pyDigit (c : Char) : Bool := '0' ≤ c && c ≤ '9'

/-- Python's `\s` on ASCII input: space, tab, newline, carriage return,
vertical tab or form feed. -/
def pySpace (c : Char) : Bool :=
  c == ' ' || c == '\t' || c == '\n' || c == '\r' || c == '\x0B' || c == '\x0C'

/-- Greedy `\d*`: the longest digit prefix and the remainder. -/
def spanDigits : List Char → List Char × List Char
  | [] => ([], [])
  | c :: cs =>
    if pyDigit c then
      let p := spanDigits cs
      (c :: p.1, p.2)
    else ([], c :: cs)

/-- Greedy `\s*`. -/
def dropSpaces : List Char → List Char
  | [] => []
  | c :: cs => if pySpace c then dropSpaces cs else c :: cs

/-- The integer denoted by a digit string, most significant digit first. -/
def digitsVal (ds : List Char) : ℚ :=
  ds.foldl (fun acc c => 10 * acc + ((c.toNat - 48 : ℕ) : ℚ)) 0

/-- Greedy `\d+\.\d+`: the matched group, kept as its integer-part and
fraction-part digit strings, plus the unconsumed remainder. -/
def matchNumber (l : List Char) : Option ((List Char × List Char) × List Char) :=
  let p1 := spanDigits l
  if p1.1 = [] then none
  else
    match p1.2 with
    | '.' :: r2 =>
      let p2 := spanDigits r2
      if p2.1 = [] then none
      else some ((p1.1, p2.1), p2.2)
    | _ => none

/-- Attempt the whole pattern `([NS])\s*(\d+\.\d+),\s*([EW])\s*(\d+\.\d+)`
at the start of the list, returning (group 2, group 4) as digit strings. -/
def scanFrom : List Char → Option ((List Char × List Char) × (List Char × List Char))
  | [] => none
  | c :: r0 =>
    if c == 'N' || c == 'S' then
      match matchNumber (dropSpaces r0) with
      | some (g2, r1) =>
        match r1 with
        | c1 :: r2 =>
          if c1 == ',' then
            match dropSpaces r2 with
            | c2 :: r3 =>
              if c2 == 'E' || c2 == 'W' then
                match matchNumber (dropSpaces r3) with
                | some (g4, _) => some (g2, g4)
                | none => none
              else none
            | [] => none
          else none
        | [] => none
      | none => none
    else none

/-- `re.search`: try the pattern at each start position, left to right. -/
def reSearch : List Char → Option ((List Char × List Char) × (List Char × List Char))
  | [] => none
  | c :: cs =>
    match scanFrom (c :: cs) with
    | some p => some p
    | none => reSearch cs

/-- Python's `float` applied to a matched `\d+\.\d+` group, idealised as
the exact rational value of the decimal literal. -/
def floatVal (g : List Char × List Char) : ℚ :=
  digitsVal g.1 + digitsVal g.2 / 10 ^ g.2.length

/-- Embeds `LongLat.from_string` (src/app.py lines 23-31): on a match it
builds `cls(longitude=float(match.group(2)), latitude=float(match.group(4)))`
— group 2 is the number following N/S and group 4 the number following
E/W — and returns `None` when `re.search` finds no match. -/
noncomputable def LongLat.from_string (string : List Char) : Option LongLat :=
  (reSearch string).map fun g => ⟨(floatVal g.1 : ℝ), (floatVal g.2 : ℝ)⟩

lemma space_not_digit (c : Char) (h : pySpace c = true) : pyDigit c = false := by
  simp only [pySpace, Bool.or_eq_true, beq_iff_eq] at h
  rcases h with (((((h | h) | h) | h) | h) | h) <;> subst h <;> decide

lemma digit_not_space (c : Char) (h : pyDigit c = true) : pySpace c = false := by
  cases hs : pySpace c
  · rfl
  · rw [space_not_digit c hs] at h
    simp at h

def headNotDigit (l : List Char) : Prop :=
  ∀ c, l.head? = some c → pyDigit c = false

lemma headNotDigit_nil : headNotDigit [] := by
  intro c hc
  simp at hc

lemma headNotDigit_cons (c : Char) (l : List Char) (h : pyDigit c = false) :
    headNotDigit (c :: l) := by
  intro x hx
  simp only [List.head?_cons, Option.some.injEq] at hx
  rw [← hx]
  exact h

lemma spanDigits_exact (ds l : List Char) (hd : ∀ c ∈ ds, pyDigit c = true)
    (hl : headNotDigit l) : spanDigits (ds ++ l) = (ds, l) := by
  induction ds with
  | nil =>
    cases l with
    | nil => rfl
    | cons c cs =>
      have hc := hl c (by simp)
      simp [spanDigits, hc]
  | cons c cs ih =>
    have hc : pyDigit c = true := hd c (List.mem_cons_self c cs)
    have ih' := ih fun x hx => hd x (List.mem_cons_of_mem c hx)
    simp [spanDigits, hc, ih']

lemma dropSpaces_space (l : List Char) : dropSpaces (' ' :: l) = dropSpaces l := by
  simp [dropSpaces, pySpace]

lemma dropSpaces_head (c : Char) (l : List Char) (h : pySpace c = false) :
    dropSpaces (c :: l) = c :: l := by
  simp [dropSpaces, h]

lemma dropSpaces_digits (d l : List Char) (hne : d ≠ []) (hd : ∀ c ∈ d, pyDigit c = true) :
    dropSpaces (d ++ l) = d ++ l := by
  cases d with
  | nil => exact absurd rfl hne
  | cons c cs =>
    simp only [List.cons_append]
    exact dropSpaces_head c _ (digit_not_space c (hd c (List.mem_cons_self c cs)))

lemma matchNumber_exact (d1 d2 r : List Char)
    (h1 : d1 ≠ []) (hd1 : ∀ c ∈ d1, pyDigit c = true)
    (h2 : d2 ≠ []) (hd2 : ∀ c ∈ d2, pyDigit c = true)
    (hr : headNotDigit r) :
    matchNumber (d1 ++ ('.' :: (d2 ++ r))) = some ((d1, d2), r) := by
  have s1 : spanDigits (d1 ++ ('.' :: (d2 ++ r))) = (d1, '.' :: (d2 ++ r)) :=
    spanDigits_exact d1 _ hd1 (headNotDigit_cons _ _ (by decide))
  have s2 : spanDigits (d2 ++ r) = (d2, r) := spanDigits_exact d2 r hd2 hr
  rw [matchNumber]
  simp [s1, s2, h1, h2]

lemma scanFrom_canonical (d1 d2 d3 d4 : List Char)
    (h1 : d1 ≠ []) (h2 : d2 ≠ []) (h3 : d3 ≠ []) (h4 : d4 ≠ [])
    (hd1 : ∀ c ∈ d1, pyDigit c = true) (hd2 : ∀ c ∈ d2, pyDigit c = true)
    (hd3 : ∀ c ∈ d3, pyDigit c = true) (hd4 : ∀ c ∈ d4, pyDigit c = true) :
    scanFrom ('N' :: ' ' ::
        (d1 ++ ('.' :: (d2 ++ (',' :: ' ' :: 'E' :: ' ' :: (d3 ++ ('.' :: d4))))))) =
      some ((d1, d2), (d3, d4)) := by
  have m1 : matchNumber
      (d1 ++ ('.' :: (d2 ++ (',' :: ' ' :: 'E' :: ' ' :: (d3 ++ ('.' :: d4)))))) =
      some ((d1, d2), ',' :: ' ' :: 'E' :: ' ' :: (d3 ++ ('.' :: d4))) :=
    matchNumber_exact d1 d2 _ h1 hd1 h2 hd2 (headNotDigit_cons _ _ (by decide))
  have m2 : matchNumber (d3 ++ ('.' :: (d4 ++ []))) = some ((d3, d4), []) :=
    matchNumber_exact d3 d4 [] h3 hd3 h4 hd4 headNotDigit_nil
  rw [List.append_nil] at m2
  simp only [scanFrom]
  rw [dropSpaces_space,
    dropSpaces_digits d1 ('.' :: (d2 ++ (',' :: ' ' :: 'E' :: ' ' :: (d3 ++ ('.' :: d4)))))
      h1 hd1, m1]
  dsimp only
  rw [dropSpaces_space, dropSpaces_head 'E' (' ' :: (d3 ++ ('.' :: d4))) (by decide)]
  dsimp only
  rw [dropSpaces_space, dropSpaces_digits d3 ('.' :: d4) h3 hd3, m2]
  simp

lemma reSearch_canonical (d1 d2 d3 d4 : List Char)
    (h1 : d1 ≠ []) (h2 : d2 ≠ []) (h3 : d3 ≠ []) (h4 : d4 ≠ [])
    (hd1 : ∀ c ∈ d1, pyDigit c = true) (hd2 : ∀ c ∈ d2, pyDigit c = true)
    (hd3 : ∀ c ∈ d3, pyDigit c = true) (hd4 : ∀ c ∈ d4, pyDigit c = true) :
    reSearch ('N' :: ' ' ::
        (d1 ++ ('.' :: (d2 ++ (',' :: ' ' :: 'E' :: ' ' :: (d3 ++ ('.' :: d4))))))) =
      some ((d1, d2), (d3, d4)) := by
  simp only [reSearch]
  rw [scanFrom_canonical d1 d2 d3 d4 h1 h2 h3 h4 hd1 hd2 hd3 hd4]

lemma reSearch_none (l : List Char) (h : ∀ ch ∈ l, ch ≠ 'N' ∧ ch ≠ 'S') :
    reSearch l = none := by
  induction l with
  | nil => rfl
  | cons c cs ih =>
    have hc := h c (List.mem_cons_self c cs)
    have hs : scanFrom (c :: cs) = none := by
      simp only [scanFrom]
      simp [hc.1, hc.2]
    simp only [reSearch]
    rw [hs]
    exact ih fun x hx => h x (List.mem_cons_of_mem c hx)

/-- Claim C6 counterexample: parsing the matching string `N 1.5, E 2.5`
yields `LongLat(longitude = 1.5, latitude = 2.5)`: the latitude field
holds 2.5, the number following E — not 1.5, the number following N as
the claim requires. -/
theorem c6_swapped_counterexample :
    LongLat.from_string ['N', ' ', '1', '.', '5', ',', ' ', 'E', ' ', '2', '.', '5'] =
      some ⟨3 / 2, 5 / 2⟩ ∧
    (⟨3 / 2, 5 / 2⟩ : LongLat).latitude ≠ 3 / 2 := by
  have e1 : floatVal (['1'], ['5']) = 3 / 2 := by
    norm_num [floatVal, digitsVal, show '1'.toNat = 49 from rfl, show '5'.toNat = 53 from rfl]
  have e2 : floatVal (['2'], ['5']) = 5 / 2 := by
    norm_num [floatVal, digitsVal, show '2'.toNat = 50 from rfl, show '5'.toNat = 53 from rfl]
  constructor
  · rw [LongLat.from_string,
      show reSearch ['N', ' ', '1', '.', '5', ',', ' ', 'E', ' ', '2', '.', '5'] =
        some ((['1'], ['5']), (['2'], ['5'])) from by decide]
    simp only [Option.map_some', e1, e2]
    norm_num [LongLat.mk.injEq]
  · show (5 / 2 : ℝ) ≠ 3 / 2
    norm_num

/-- Claim C6 (amended): `from_string` returns none (absence, not an
exception) when the pattern does not occur — in particular whenever the
string contains no `N` or `S` at all — and on a matching string it
returns the number following N/S in the LONGITUDE field and the number
following E/W in the LATITUDE field: the two assignments are swapped
relative to the claim's reading of the `N <lat>, E <lon>` format. -/
theorem c6_from_string_swapped :
    (∀ l : List Char, (∀ ch ∈ l, ch ≠ 'N' ∧ ch ≠ 'S') → LongLat.from_string l = none) ∧
    (∀ d1 d2 d3 d4 : List Char,
      d1 ≠ [] → d2 ≠ [] → d3 ≠ [] → d4 ≠ [] →
      (∀ c ∈ d1, pyDigit c = true) → (∀ c ∈ d2, pyDigit c = true) →
      (∀ c ∈ d3, pyDigit c = true) → (∀ c ∈ d4, pyDigit c = true) →
      LongLat.from_string ('N' :: ' ' ::
          (d1 ++ ('.' :: (d2 ++ (',' :: ' ' :: 'E' :: ' ' :: (d3 ++ ('.' :: d4))))))) =
        some ⟨(floatVal (d1, d2) : ℝ), (floatVal (d3, d4) : ℝ)⟩) := by
  constructor
  · intro l h
    rw [LongLat.from_string, reSearch_none l h]
    rfl
  · intro d1 d2 d3 d4 h1 h2 h3 h4 hd1 hd2 hd3 hd4
    rw [LongLat.from_string, reSearch_canonical d1 d2 d3 d4 h1 h2 h3 h4 hd1 hd2 hd3 hd4]
    rfl

/-- Witness for the amended C6: a concrete non-matching string parses to
none, and the concrete matching string `N 1.5, E 2.5` parses with the
N-number in the longitude field and the E-number in the latitude field. -/
theorem c6_from_string_swapped_witness :
    LongLat.from_string ['h', 'i'] = none ∧
    LongLat.from_string ['N', ' ', '1', '.', '5', ',', ' ', 'E', ' ', '2', '.', '5'] =
      some ⟨(floatVal (['1'], ['5']) : ℝ), (floatVal (['2'], ['5']) : ℝ)⟩ :=
  ⟨c6_from_string_swapped.1 ['h', 'i'] (by decide),
   c6_from_string_swapped.2 ['1'] ['5'] ['2'] ['5']
     (by decide) (by decide) (by decide) (by decide)
     (by decide) (by decide) (by decide) (by decide)⟩
